import Mathlib

/-!
# Verification of the dropout-risk scoring pipeline

Shallow embedding of the risk-scoring core of the xul-dropout-backend
repository: the risk interpreter (`app/utils/ml_model.py`,
`app/services/ml_model.py`), the feature extractor and prediction recorder
(`app/crud/prediction.py`), the feature encoder (`app/utils/ml_model.py`), and
the batch scheduler (`app/services/daily_predictions.py`).

Python floats are modelled as rationals; database rows as lists of records;
raised exceptions as `Option`/sum results at the boundary where the source
catches them.
-/

namespace Dropout

/-- The four risk levels of `app/schemas/ml_model.py` (`RiskLevel`). -/
inductive RiskLevel where
  | low
  | medium
  | high
  | critical
deriving DecidableEq, Repr

/-- Numeric rank of a level in the ordering low < medium < high < critical. -/
def RiskLevel.rank : RiskLevel → ℕ
  | .low => 0
  | .medium => 1
  | .high => 2
  | .critical => 3

/-- `determine_risk_level` from `app/utils/ml_model.py` (lines 43-52):
successive `if probability < threshold` tests at 0.3, 0.6, 0.8. -/
def determine_risk_level (probability : ℚ) : RiskLevel :=
  if probability < 3/10 then .low
  else if probability < 6/10 then .medium
  else if probability < 8/10 then .high
  else .critical

/-- The flat feature mapping produced by `fetch_student_data` in
`app/crud/prediction.py` and consumed by the interpreter and encoder. -/
structure FeatureVector where
  student_id : String
  age : ℚ
  gender : String
  distance_to_school : ℚ
  special_learning : Bool
  household_income : String
  orphan_status : String
  school_attendance_rate : ℚ
  term_avg_score : ℚ
  bullying_incidents_total : ℤ
  class_repetitions : ℤ
  standard : ℤ
deriving DecidableEq, Repr

/-- `get_contributing_factors` from `app/services/ml_model.py` (lines 9-39):
independent threshold rules appended in a fixed order.  `probability` is a
parameter of the source function but is not read by its body. -/
def get_contributing_factors (features : FeatureVector) (probability : ℚ) :
    List String :=
  let _ := probability
  let factors : List String := []
  let factors := if features.term_avg_score < 300 then
    factors ++ ["Low academic performance"] else factors
  let factors := if features.school_attendance_rate < 8/10 then
    factors ++ ["Poor attendance"] else factors
  let factors := if features.class_repetitions > 0 then
    factors ++ ["Grade repetition history"] else factors
  let factors := if features.bullying_incidents_total > 5 then
    factors ++ ["High bullying incidents"] else factors
  let factors := if features.household_income = "low" then
    factors ++ ["Low household income"] else factors
  let factors := if features.distance_to_school > 7 then
    factors ++ ["Long distance to school"] else factors
  let factors := if features.special_learning then
    factors ++ ["Special learning needs"] else factors
  let expected_age : ℚ := 6 + (features.standard : ℚ) + (features.class_repetitions : ℚ)
  let factors := if features.age > expected_age + 2 then
    factors ++ ["Age-grade mismatch"] else factors
  factors

/-- `generate_recommendations` from `app/services/ml_model.py` (lines 41-77):
a lookup keyed by factor label, plus level-specific items for high/critical. -/
def generate_recommendations (risk_level : RiskLevel) (factors : List String) :
    List String :=
  let recommendations : List String := []
  let recommendations := if "Low academic performance" ∈ factors then
    recommendations ++ ["Provide additional tutoring support",
      "Implement personalized learning plans"] else recommendations
  let recommendations := if "Poor attendance" ∈ factors then
    recommendations ++ ["Conduct home visits to understand barriers",
      "Implement attendance monitoring system"] else recommendations
  let recommendations := if "High bullying incidents" ∈ factors then
    recommendations ++ ["Immediate counseling and peer mediation",
      "Enhanced supervision and anti-bullying programs"] else recommendations
  let recommendations := if "Low household income" ∈ factors then
    recommendations ++ ["Connect family with social services",
      "Provide school feeding programs"] else recommendations
  let recommendations := if "Long distance to school" ∈ factors then
    recommendations ++ ["Explore transport assistance options",
      "Consider boarding arrangements"] else recommendations
  let recommendations := if "Special learning needs" ∈ factors then
    recommendations ++ ["Develop individualized education plan",
      "Provide specialized learning resources"] else recommendations
  let recommendations := if risk_level = RiskLevel.critical then
    recommendations ++ ["URGENT: Schedule immediate intervention meeting",
      "Assign dedicated case manager"]
  else if risk_level = RiskLevel.high then
    recommendations ++ ["Schedule weekly check-ins",
      "Involve parents/guardians in intervention plan"]
  else recommendations
  recommendations

/-! ## Record Store rows (`app/models/all_models.py`), restricted to the
columns read by `fetch_student_data`. Dates are modelled as integer day
numbers; SQL enum values as strings; nullable columns as `Option`. -/

/-- A row of `attendance_records`. -/
structure AttendanceRow where
  student_id : String
  date : ℤ
  status : String
deriving DecidableEq, Repr

/-- A row of `academic_performance`. -/
structure AcademicRow where
  student_id : String
  marks_obtained : ℚ
  total_marks : ℚ
  academic_year : String
deriving DecidableEq, Repr

/-- A row of `bullying_incidents` (only the victim reference is read). -/
structure BullyingRow where
  victim_student_id : String
deriving DecidableEq, Repr

/-- A row of `student_class_history` (only student and status are read). -/
structure ClassHistoryRow where
  student_id : String
  status : String
deriving DecidableEq, Repr

/-- A row of `students`, restricted to the columns the pipeline reads. -/
structure StudentRow where
  id : String
  age : ℤ
  gender : String
  distance_to_school_km : Option ℚ
  special_needs : Option String
  guardian_id : String
  current_class_id : String
  status : String
deriving DecidableEq, Repr

/-- A row of `guardians`, restricted to the columns the pipeline reads. -/
structure GuardianRow where
  id : String
  monthly_income_range : Option String
  relationship_to_student : Option String
deriving DecidableEq, Repr

/-- A row of `classes`, restricted to the columns the pipeline reads. -/
structure ClassRow where
  id : String
  name : String
deriving DecidableEq, Repr

/-- A persisted row of `dropout_predictions`
(`DropoutPrediction` in `app/models/all_models.py`). -/
structure PredictionRow where
  student_id : String
  risk_score : ℚ
  risk_level : String
  contributing_factors : List String
  prediction_date : ℤ
  algorithm_version : String
  intervention_recommended : String
deriving DecidableEq, Repr

/-- The database state visible to the scoring pipeline, plus the current
date used by the 30-day attendance window. -/
structure RecordStore where
  today : ℤ
  students : List StudentRow
  guardians : List GuardianRow
  classes : List ClassRow
  attendance : List AttendanceRow
  academic_performance : List AcademicRow
  bullying_incidents : List BullyingRow
  student_class_history : List ClassHistoryRow
  dropout_predictions : List PredictionRow
deriving DecidableEq, Repr

/-! ## `fetch_student_data` (`app/crud/prediction.py`, lines 18-131) -/

/-- The attendance subquery: counts of present rows and of all rows for the
student in the last 30 days, or `none` when the student has no attendance
rows in the window (the SQL `GROUP BY` then yields no group and the outer
join produces NULLs). -/
def attendance_subquery (student_id : String) (db : RecordStore) :
    Option (ℕ × ℕ) :=
  let rows := db.attendance.filter
    (fun r => r.student_id == student_id && decide (db.today - 30 ≤ r.date))
  if rows.isEmpty then none
  else some ((rows.filter (fun r => r.status == "present")).length, rows.length)

/-- The average-score subquery: over the student's rows of the maximum
`academic_year`, the average of `marks_obtained * total_marks / 100`; `none`
when the student has no `academic_performance` rows at all.  SQL numeric
division is modelled exactly on `ℚ`. -/
def avg_score_subquery (student_id : String) (db : RecordStore) : Option ℚ :=
  let rows := db.academic_performance.filter (fun r => r.student_id == student_id)
  if rows.isEmpty then none
  else
    let max_year := (rows.map (·.academic_year)).foldl max ""
    let year_rows := rows.filter (fun r => r.academic_year == max_year)
    some (((year_rows.map (fun r => r.marks_obtained * r.total_marks / 100)).sum)
      / (year_rows.length : ℚ))

/-- The bullying subquery folded through `coalesce(count, 0)`: the number of
`bullying_incidents` rows naming the student as victim. -/
def bullying_count (student_id : String) (db : RecordStore) : ℕ :=
  (db.bullying_incidents.filter (fun r => r.victim_student_id == student_id)).length

/-- The repetition subquery folded through `coalesce(count, 0)`: the number of
`student_class_history` rows for the student with status `repeated`. -/
def repetition_count (student_id : String) (db : RecordStore) : ℕ :=
  (db.student_class_history.filter
    (fun r => r.student_id == student_id && r.status == "repeated")).length

/-- `coalesce(cast(regexp_replace(name, '[^0-9]', '', 'g') as integer), 5)`:
the digits of the class name read as a number.  `Class.name` is NOT NULL, so
the cast of a digit-bearing name succeeds and is non-null (the coalesce's
5-default is unreachable); when the name contains no digit the expression is
`CAST('' AS INTEGER)`, which raises in PostgreSQL — the whole query errors,
modelled as `none`. -/
def class_standard (name : String) : Option ℤ :=
  let digits := name.toList.filter Char.isDigit
  if digits.isEmpty then none
  else some ((digits.foldl (fun acc c => 10 * acc + (c.toNat - 48)) 0 : ℕ) : ℤ)

/-- `fetch_student_data` from `app/crud/prediction.py` (lines 18-131): the
single ORM query joining the student to its guardian and class (inner joins)
and outer-joining the four subqueries, followed by the dictionary construction
with its Python `or`-defaults.  Returns `none` when the joined query yields no
row, and also when the query raises — the `except` at lines 130-132 logs and
returns `None`; in particular a class name without a digit makes the standard
cast raise and the whole fetch return `none`. -/
def fetch_student_data (student_id : String) (db : RecordStore) :
    Option FeatureVector :=
  match db.students.find? (fun s => s.id == student_id) with
  | none => none
  | some s =>
    match db.guardians.find? (fun g => g.id == s.guardian_id) with
    | none => none
    | some g =>
      match db.classes.find? (fun c => c.id == s.current_class_id) with
      | none => none
      | some c =>
        match class_standard c.name with
        | none => none
        | some standard_value =>
        some {
          student_id := s.id
          age := (s.age : ℚ)
          gender := s.gender
          distance_to_school := match s.distance_to_school_km with
            | none => 5
            | some d => if d = 0 then 5 else d
          special_learning := match s.special_needs with
            | none => false
            | some t => !(t == "")
          household_income := match g.monthly_income_range with
            | none => "medium"
            | some v => if v = "" then "medium" else v
          orphan_status :=
            if g.relationship_to_student = some "guardian"
                ∨ g.relationship_to_student = some "relative"
            then "yes" else "no"
          school_attendance_rate := match attendance_subquery student_id db with
            | none => 8/10
            | some (p, t) => if t = 0 then 8/10 else (p : ℚ) / (t : ℚ)
          term_avg_score := match avg_score_subquery student_id db with
            | none => 300
            | some a => a
          bullying_incidents_total := (bullying_count student_id db : ℤ)
          class_repetitions := (repetition_count student_id db : ℤ)
          standard := standard_value
        }

/-! ## Model artifacts and `preprocess_features` (`app/utils/ml_model.py`) -/

/-- The persisted artifact bundle of `app/saved_model`: the ordered feature
column list, the fitted label encoders (one per categorical column; `transform`
on an unseen label raises, modelled as `none`), and the fitted scaler (treated
as a black-box row transformation). -/
structure ModelArtifacts where
  feature_columns : List String
  label_encoders : String → String → Option ℤ
  scaler : List ℚ → List ℚ

/-- `load_model_artifacts` (`app/utils/ml_model.py`, lines 17-41): a
deterministic read of the persisted bundle from the `app/saved_model`
directory, returning (and storing into module globals) its current contents. -/
def load_model_artifacts (saved_model : ModelArtifacts) : ModelArtifacts :=
  saved_model

/-- The encoding body of `preprocess_features` given an already-loaded artifact
bundle: encode the three categorical columns through the label encoders
(raising on an unseen label), coerce `special_learning` to 0/1, reorder the
columns to `feature_columns` (an unknown column name raises), and apply the
fitted scaler.  `none` models a raised exception. -/
def encode_with (a : ModelArtifacts) (data : FeatureVector) : Option (List ℚ) := do
  let hi ← a.label_encoders "household_income" data.household_income
  let os ← a.label_encoders "orphan_status" data.orphan_status
  let ge ← a.label_encoders "gender" data.gender
  let sl : ℚ := if data.special_learning then 1 else 0
  let row ← a.feature_columns.mapM (fun c =>
    if c = "age" then some data.age
    else if c = "gender" then some (ge : ℚ)
    else if c = "distance_to_school" then some data.distance_to_school
    else if c = "special_learning" then some sl
    else if c = "household_income" then some (hi : ℚ)
    else if c = "orphan_status" then some (os : ℚ)
    else if c = "school_attendance_rate" then some data.school_attendance_rate
    else if c = "term_avg_score" then some data.term_avg_score
    else if c = "bullying_incidents_total" then some (data.bullying_incidents_total : ℚ)
    else if c = "class_repetitions" then some (data.class_repetitions : ℚ)
    else if c = "standard" then some (data.standard : ℚ)
    else none)
  some (a.scaler row)

/-- `preprocess_features` (`app/utils/ml_model.py`, lines 55-80): the source
calls `load_model_artifacts()` again on every invocation, re-reading the
persisted bundle, and then encodes with the freshly loaded artifacts. -/
def preprocess_features (saved_model : ModelArtifacts) (data : FeatureVector) :
    Option (List ℚ) :=
  let a := load_model_artifacts saved_model
  encode_with a data

/-- A scoring process: the current contents of the `app/saved_model` directory
and the module-level globals captured by the `load_model_artifacts()` call
made when the module loads (`app/services/daily_predictions.py`, line 19). -/
structure ProcessState where
  saved_model : ModelArtifacts
  startup_artifacts : ModelArtifacts

/-! ## `save_prediction_to_db` (`app/crud/prediction.py`, lines 134-155) -/

/-- `PredictionResponse` from `app/schemas/ml_model.py`. -/
structure PredictionResponse where
  student_id : String
  dropout_risk_probability : ℚ
  dropout_risk_binary : ℤ
  risk_level : RiskLevel
  contributing_factors : List String
  prediction_date : ℤ
  confidence_score : ℚ
  recommendations : List String

/-- The string value of a risk level (`RiskLevel(str, Enum)`). -/
def RiskLevel.value : RiskLevel → String
  | .low => "low"
  | .medium => "medium"
  | .high => "high"
  | .critical => "critical"

/-- The `DropoutPrediction` row that `save_prediction_to_db` constructs from a
`PredictionResponse`. -/
def to_prediction_row (prediction : PredictionResponse) : PredictionRow :=
  { student_id := prediction.student_id
    risk_score := prediction.dropout_risk_probability * 100
    risk_level := prediction.risk_level.value
    contributing_factors := prediction.contributing_factors
    prediction_date := prediction.prediction_date
    algorithm_version := "xgboost_v1.0"
    intervention_recommended := String.intercalate "; " prediction.recommendations }

/-- Outcome of `save_prediction_to_db`.  `studentNotFound` is the failure kind
the specification prescribes for a deleted student; `integrityError` is the
database foreign-key violation raised at `db.commit()` and re-raised by the
source after `db.rollback()`. -/
inductive SaveOutcome where
  | ok (db : RecordStore)
  | studentNotFound
  | integrityError
deriving DecidableEq, Repr

/-- `save_prediction_to_db` (`app/crud/prediction.py`, lines 134-155): build a
new `DropoutPrediction` row, `db.add` it and `db.commit()`.  The commit
enforces the `students.id` foreign key: with the referenced student present the
insert is appended; otherwise the database raises, the source rolls the session
back (leaving the store unchanged) and re-raises the database error.  The
function contains no student-existence check of its own. -/
def save_prediction_to_db (prediction : PredictionResponse) (db : RecordStore) :
    SaveOutcome :=
  let new_prediction := to_prediction_row prediction
  if db.students.any (fun s => s.id == prediction.student_id) then
    .ok { db with dropout_predictions := db.dropout_predictions ++ [new_prediction] }
  else
    .integrityError

/-! ## Batch scheduler (`app/services/daily_predictions.py`) -/

/-- `generate_student_prediction` (lines 21-55): fetch the features, encode
them (the module reloads artifacts from `saved_model` inside
`preprocess_features`), score with the startup-loaded classifier, build the
`PredictionResponse`, and save it.  The whole body sits in `try/except`: a
`None` feature fetch, an encoder exception or a save exception all yield
`False`; success yields `True`.  The store is returned alongside (the save
commits an insert on success, and is rolled back on failure). -/
def generate_student_prediction (saved_model : ModelArtifacts)
    (model : List ℚ → ℚ) (student : StudentRow) (db : RecordStore) :
    Bool × RecordStore :=
  match fetch_student_data student.id db with
  | none => (false, db)
  | some features =>
    match preprocess_features saved_model features with
    | none => (false, db)
    | some scaled_features =>
      let probability := model scaled_features
      let prediction : PredictionResponse :=
        { student_id := student.id
          dropout_risk_probability := probability
          dropout_risk_binary := if 1/2 ≤ probability then 1 else 0
          risk_level := determine_risk_level probability
          contributing_factors := get_contributing_factors features probability
          prediction_date := db.today
          confidence_score := max probability (1 - probability)
          recommendations := generate_recommendations
            (determine_risk_level probability)
            (get_contributing_factors features probability) }
      match save_prediction_to_db prediction db with
      | .ok db' => (true, db')
      | _ => (false, db)

/-- One sub-batch: `asyncio.gather` over `generate_student_prediction` for each
student of the batch, sharing the session; results in roster order.  With
`return_exceptions=True` and the per-student handler, every result is a
boolean. -/
def run_batch (saved_model : ModelArtifacts) (model : List ℚ → ℚ) :
    List StudentRow → RecordStore → List Bool × RecordStore
  | [], db => ([], db)
  | student :: rest, db =>
    let (r, db') := generate_student_prediction saved_model model student db
    let (rs, db'') := run_batch saved_model model rest db'
    (r :: rs, db'')

/-- The `PredictionTaskHistory` record (imported by
`app/services/daily_predictions.py`), restricted to the counter and status
columns the run updates. -/
structure PredictionTaskHistory where
  status : String
  total_students : ℕ
  processed_count : ℕ
  success_count : ℕ
  failure_count : ℕ
deriving DecidableEq, Repr

/-- The `for i in range(0, len(students), batch_size)` loop of
`generate_daily_predictions` (lines 89-101): per sub-batch, run the batch, then
assign `processed_count = min(i + batch_size, total)`,
`success_count = (this batch's successes)`,
`failure_count = (this batch's size) - (this batch's successes)` and commit.
Returns the list of committed record snapshots and the final store.  `fuel`
bounds the recursion; callers pass the roster length, which suffices whenever
`batch_size > 0`. -/
def prediction_loop (saved_model : ModelArtifacts) (model : List ℚ → ℚ)
    (batch_size total : ℕ) :
    ℕ → ℕ → List StudentRow → RecordStore → PredictionTaskHistory →
    List PredictionTaskHistory × RecordStore
  | _, _, [], db, _ => ([], db)
  | 0, _, _ :: _, db, _ => ([], db)
  | fuel + 1, i, student :: rest, db, task_record =>
    let batch := (student :: rest).take batch_size
    let (results, db') := run_batch saved_model model batch db
    let task_record' := { task_record with
      processed_count := min (i + batch_size) total
      success_count := (results.filter id).length
      failure_count := results.length - (results.filter id).length }
    let (snaps, db'') := prediction_loop saved_model model batch_size total
      fuel (i + batch_size) ((student :: rest).drop batch_size) db' task_record'
    (task_record' :: snaps, db'')

/-- The active-student roster: `db.query(Student).filter(Student.status ==
"active")`. -/
def active_students (db : RecordStore) : List StudentRow :=
  db.students.filter (fun s => s.status == "active")

/-- The task record created and committed at batch start (lines 66-75):
status `running`, the snapshot of the roster size, all counters zero. -/
def initial_task_record (db : RecordStore) : PredictionTaskHistory :=
  { status := "running", total_students := (active_students db).length
    processed_count := 0, success_count := 0, failure_count := 0 }

/-- The per-sub-batch record snapshots committed by the loop of
`generate_daily_predictions`. -/
def committed_batch_snapshots (saved_model : ModelArtifacts)
    (model : List ℚ → ℚ) (batch_size : ℕ) (db : RecordStore) :
    List PredictionTaskHistory :=
  (prediction_loop saved_model model batch_size (active_students db).length
    (active_students db).length 0 (active_students db) db
    (initial_task_record db)).1

/-- `generate_daily_predictions` (lines 57-115), happy path: commit the
initial `running` record; if there are no active students, mark it completed
and stop; otherwise run the batch loop, committing a snapshot per sub-batch,
and finally mark the current record completed and commit.  The first component
is the sequence of record states committed to the store, in order; the second
is the final store. -/
def generate_daily_predictions (saved_model : ModelArtifacts)
    (model : List ℚ → ℚ) (batch_size : ℕ) (db : RecordStore) :
    List PredictionTaskHistory × RecordStore :=
  let total := (active_students db).length
  let init := initial_task_record db
  if total = 0 then
    ([init, { init with status := "completed" }], db)
  else
    let (snaps, db') := prediction_loop saved_model model batch_size total
      (active_students db).length 0 (active_students db) db init
    let last := (init :: snaps).getLastD init
    ((init :: snaps) ++ [{ last with status := "completed" }], db')

/-- The run record as finally committed by a successful
`generate_daily_predictions` run. -/
def final_task_record (saved_model : ModelArtifacts) (model : List ℚ → ℚ)
    (batch_size : ℕ) (db : RecordStore) : PredictionTaskHistory :=
  (generate_daily_predictions saved_model model batch_size db).1.getLastD
    { status := "running", total_students := 0
      processed_count := 0, success_count := 0, failure_count := 0 }

/-- The sequence of record states committed when a run-level exception aborts
the run: the first `k` commits of the normal path succeed, the exception is
raised either by commit `k` itself (`at_commit = true`, so the in-memory record
is the one that failed to commit) or between commits (`at_commit = false`, the
in-memory record is the last committed one), and the `except` block stamps the
in-memory record `failed` and commits it (`fail_commit_ok`; if that final
commit also fails, only the prefix is committed).  When the exception precedes
even the first commit, `task_record` is still `None` and nothing is written. -/
def aborted_trace (saved_model : ModelArtifacts) (model : List ℚ → ℚ)
    (batch_size : ℕ) (db : RecordStore) (k : ℕ)
    (at_commit fail_commit_ok : Bool) : List PredictionTaskHistory :=
  let t := (generate_daily_predictions saved_model model batch_size db).1
  if ¬ fail_commit_ok then t.take k
  else if k = 0 ∧ at_commit = false then []
  else
    let base := t.getD (if at_commit then k else k - 1)
      { status := "running", total_students := 0
        processed_count := 0, success_count := 0, failure_count := 0 }
    t.take k ++ [{ base with status := "failed" }]

/-- One legal update step of a batch-run record: the processed count never
decreases and the status only moves from `running` to `running`, `completed`
or `failed` (in particular never out of a terminal state). -/
def task_step (a b : PredictionTaskHistory) : Prop :=
  a.processed_count ≤ b.processed_count ∧ a.status = "running" ∧
    (b.status = "running" ∨ b.status = "completed" ∨ b.status = "failed")

/-- The concrete feature vector of the §8 scenario: `term_avg_score = 250`,
`school_attendance_rate = 0.65`, `class_repetitions = 2`, six bullying
incidents, low household income; the remaining fields are unremarkable (no
long distance, no special-learning need, no age-grade mismatch). -/
def scenario_features : FeatureVector :=
  { student_id := "scenario-student"
    age := 10
    gender := "male"
    distance_to_school := 5
    special_learning := false
    household_income := "low"
    orphan_status := "no"
    school_attendance_rate := 13/20
    term_avg_score := 250
    bullying_incidents_total := 6
    class_repetitions := 2
    standard := 3 }

/-- A store holding one active student with a guardian and a class but no
academic-performance rows and no attendance rows at all. -/
def zero_history_store : RecordStore :=
  ⟨1000,
   [⟨"s1", 10, "male", some 3, none, "g1", "c1", "active"⟩],
   [⟨"g1", some "medium", some "mother"⟩],
   [⟨"c1", "Standard 4"⟩],
   [], [], [], [], []⟩

/-- The student row of `zero_history_store`. -/
def zero_history_student : StudentRow :=
  ⟨"s1", 10, "male", some 3, none, "g1", "c1", "active"⟩

/-- A minimal artifact bundle whose encoders accept every label and whose
scaler is the identity, over the single column `age`. -/
def demo_disk : ModelArtifacts :=
  ⟨["age"], fun _ _ => some 0, fun row => row⟩

/-- A classifier stub returning probability 0 for every row. -/
def demo_model : List ℚ → ℚ := fun _ => 0

/-- A store with two active students, both of whom score successfully under
`demo_disk`/`demo_model` (guardian and class resolve; defaults cover the
missing history). -/
def two_student_store : RecordStore :=
  ⟨1000,
   [⟨"s1", 10, "male", some 3, none, "g1", "c1", "active"⟩,
    ⟨"s2", 11, "female", some 2, none, "g1", "c1", "active"⟩],
   [⟨"g1", some "medium", some "mother"⟩],
   [⟨"c1", "Standard 4"⟩],
   [], [], [], [], []⟩

/-- A store with two active students where the second student's guardian id
resolves to no guardian row, so feature extraction fails for that student. -/
def mixed_outcome_store : RecordStore :=
  ⟨1000,
   [⟨"s1", 10, "male", some 3, none, "g1", "c1", "active"⟩,
    ⟨"s3", 9, "female", none, none, "gX", "c1", "active"⟩],
   [⟨"g1", some "medium", some "mother"⟩],
   [⟨"c1", "Standard 4"⟩],
   [], [], [], [], []⟩

/-- A second artifact bundle with a different feature-column list, standing
for a re-persisted `saved_model` directory. -/
def artifacts_v1 : ModelArtifacts :=
  ⟨["age", "standard"], fun _ _ => some 0, fun row => row⟩

/-- A process whose `saved_model` directory now holds `artifacts_v1` while the
module-level globals still hold the bundle loaded at import (`demo_disk`). -/
def stale_process : ProcessState :=
  { saved_model := artifacts_v1, startup_artifacts := demo_disk }

/-- A prediction response referencing a student id absent from the store. -/
def missing_student_prediction : PredictionResponse :=
  { student_id := "ghost", dropout_risk_probability := 1/2
    dropout_risk_binary := 1, risk_level := .medium
    contributing_factors := [], prediction_date := 1000
    confidence_score := 1/2, recommendations := [] }

/-- A prediction response referencing student `s1` of `zero_history_store`. -/
def s1_prediction : PredictionResponse :=
  { student_id := "s1", dropout_risk_probability := 0
    dropout_risk_binary := 0, risk_level := .low
    contributing_factors := [], prediction_date := 1000
    confidence_score := 1, recommendations := [] }

/-- `zero_history_store` after recording `s1_prediction`. -/
def s1_saved_store : RecordStore :=
  { zero_history_store with dropout_predictions :=
      zero_history_store.dropout_predictions ++ [to_prediction_row s1_prediction] }

/-! ## Theorems -/

/-- C1: for every probability `p ∈ [0,1]`, `determine_risk_level` is total and
returns exactly one of the four levels according to the fixed thresholds —
low on `[0, 0.3)`, medium on `[0.3, 0.6)`, high on `[0.6, 0.8)`, critical on
`[0.8, 1]` — and the mapping is monotonic in the ordering
low < medium < high < critical. -/
theorem determine_risk_level_thresholds_monotone (p : ℚ)
    (h0 : 0 ≤ p) (h1 : p ≤ 1) :
    (determine_risk_level p = .low ↔ 0 ≤ p ∧ p < 3/10)
    ∧ (determine_risk_level p = .medium ↔ 3/10 ≤ p ∧ p < 6/10)
    ∧ (determine_risk_level p = .high ↔ 6/10 ≤ p ∧ p < 8/10)
    ∧ (determine_risk_level p = .critical ↔ 8/10 ≤ p ∧ p ≤ 1)
    ∧ (∀ p' : ℚ, 0 ≤ p' → p' ≤ 1 → p < p' →
        (determine_risk_level p).rank ≤ (determine_risk_level p').rank) := by
  have hmono : ∀ q q' : ℚ, q < q' →
      (determine_risk_level q).rank ≤ (determine_risk_level q').rank := by
    intro q q' h
    unfold determine_risk_level
    split_ifs <;> simp [RiskLevel.rank] <;> linarith
  refine ⟨?_, ?_, ?_, ?_, fun p' _ _ h => hmono p p' h⟩ <;>
    · unfold determine_risk_level
      split_ifs with hA hB hC <;> simp_all <;>
        first
          | linarith
          | (constructor <;> linarith)
          | (intro h; linarith)
          | (rintro ⟨h2, h3⟩; linarith)

/-- Witness for C1 at `p = 0.5`, `p' = 0.7`. -/
theorem determine_risk_level_thresholds_monotone_witness :
    determine_risk_level (1/2) = .medium
    ∧ (determine_risk_level (1/2)).rank ≤ (determine_risk_level (7/10)).rank := by
  have h := determine_risk_level_thresholds_monotone (1/2)
    (by norm_num) (by norm_num)
  exact ⟨h.2.1.mpr ⟨by norm_num, by norm_num⟩,
    h.2.2.2.2 (7/10) (by norm_num) (by norm_num) (by norm_num)⟩

/-- C8: on the concrete scenario (`term_avg_score = 250`, attendance 0.65,
2 repetitions, 6 bullying incidents, low income, classifier probability 0.72)
the risk level is high; the factors include the five expected labels; the
recommendations include tutoring support, home visits and attendance
monitoring, counseling and mediation, and a social-services referral; and the
returned recommendation list has no duplicates. -/
theorem scenario_high_risk_factors_recommendations :
    determine_risk_level (72/100) = .high
    ∧ "Low academic performance" ∈ get_contributing_factors scenario_features (72/100)
    ∧ "Poor attendance" ∈ get_contributing_factors scenario_features (72/100)
    ∧ "Grade repetition history" ∈ get_contributing_factors scenario_features (72/100)
    ∧ "High bullying incidents" ∈ get_contributing_factors scenario_features (72/100)
    ∧ "Low household income" ∈ get_contributing_factors scenario_features (72/100)
    ∧ "Provide additional tutoring support" ∈ generate_recommendations
        (determine_risk_level (72/100)) (get_contributing_factors scenario_features (72/100))
    ∧ "Conduct home visits to understand barriers" ∈ generate_recommendations
        (determine_risk_level (72/100)) (get_contributing_factors scenario_features (72/100))
    ∧ "Implement attendance monitoring system" ∈ generate_recommendations
        (determine_risk_level (72/100)) (get_contributing_factors scenario_features (72/100))
    ∧ "Immediate counseling and peer mediation" ∈ generate_recommendations
        (determine_risk_level (72/100)) (get_contributing_factors scenario_features (72/100))
    ∧ "Connect family with social services" ∈ generate_recommendations
        (determine_risk_level (72/100)) (get_contributing_factors scenario_features (72/100))
    ∧ (generate_recommendations (determine_risk_level (72/100))
        (get_contributing_factors scenario_features (72/100))).Nodup := by
  have hlevel : determine_risk_level (72/100) = .high := by
    norm_num [determine_risk_level]
  have hfactors : get_contributing_factors scenario_features (72/100) =
      ["Low academic performance", "Poor attendance", "Grade repetition history",
       "High bullying incidents", "Low household income"] := by
    norm_num [get_contributing_factors, scenario_features]
  rw [hlevel, hfactors]
  refine ⟨rfl, by decide, by decide, by decide, by decide, by decide,
    ?_, ?_, ?_, ?_, ?_, ?_⟩ <;> decide

/-- C10: when the only firing contributing-factor rules are "Grade repetition
history" and/or "Age-grade mismatch" and the risk level is low or medium,
`generate_recommendations` returns the empty list — neither label has an entry
in the recommendation lookup, and low/medium add no escalation items. -/
theorem repetition_mismatch_only_no_recommendations (features : FeatureVector)
    (probability : ℚ) (risk_level : RiskLevel)
    (hsub : ∀ f ∈ get_contributing_factors features probability,
      f = "Grade repetition history" ∨ f = "Age-grade mismatch")
    (hlevel : risk_level = .low ∨ risk_level = .medium) :
    generate_recommendations risk_level
      (get_contributing_factors features probability) = [] := by
  set fs := get_contributing_factors features probability with hfs
  have h1 : "Low academic performance" ∉ fs := fun h => by
    rcases hsub _ h with h' | h' <;> simp at h'
  have h2 : "Poor attendance" ∉ fs := fun h => by
    rcases hsub _ h with h' | h' <;> simp at h'
  have h3 : "High bullying incidents" ∉ fs := fun h => by
    rcases hsub _ h with h' | h' <;> simp at h'
  have h4 : "Low household income" ∉ fs := fun h => by
    rcases hsub _ h with h' | h' <;> simp at h'
  have h5 : "Long distance to school" ∉ fs := fun h => by
    rcases hsub _ h with h' | h' <;> simp at h'
  have h6 : "Special learning needs" ∉ fs := fun h => by
    rcases hsub _ h with h' | h' <;> simp at h'
  rcases hlevel with h | h <;> subst h <;>
    simp [generate_recommendations, h1, h2, h3, h4, h5, h6]

/-- Witness for C10: a student whose only firing rule is grade repetition
(score 400, attendance 0.9, no bullying, medium income, short distance, no
special need, age within tolerance), risk level low. -/
theorem repetition_mismatch_only_no_recommendations_witness :
    generate_recommendations .low
      (get_contributing_factors
        { student_id := "w", age := 9, gender := "female",
          distance_to_school := 5, special_learning := false,
          household_income := "medium", orphan_status := "no",
          school_attendance_rate := 9/10, term_avg_score := 400,
          bullying_incidents_total := 0, class_repetitions := 1,
          standard := 3 } (1/10)) = [] := by
  refine repetition_mismatch_only_no_recommendations _ (1/10) .low ?_ (Or.inl rfl)
  have h : get_contributing_factors
      { student_id := "w", age := 9, gender := "female",
        distance_to_school := 5, special_learning := false,
        household_income := "medium", orphan_status := "no",
        school_attendance_rate := 9/10, term_avg_score := 400,
        bullying_incidents_total := 0, class_repetitions := 1,
        standard := 3 } (1/10) = ["Grade repetition history"] := by
    norm_num [get_contributing_factors]
    decide
  rw [h]
  intro f hf
  simp at hf
  exact Or.inl hf

/-- C3 counterexample: a student who exists (with guardian and class) but has
zero academic-performance rows is not rejected with an insufficient-data
failure — `fetch_student_data` returns a populated feature dictionary whose
`term_avg_score` is the fabricated default 300, and the per-student pipeline
proceeds to score and record a prediction successfully. -/
theorem zero_history_scored_with_default :
    fetch_student_data "s1" zero_history_store ≠ none
    ∧ (fetch_student_data "s1" zero_history_store).map
        FeatureVector.term_avg_score = some 300
    ∧ (generate_student_prediction demo_disk demo_model zero_history_student
        zero_history_store).1 = true := by
  refine ⟨by decide, by decide, by decide⟩

/-- C3 as amended: for every student row that resolves together with its
guardian and class, and whose class name yields a successful standard cast
(it contains a digit), zero academic-performance rows do not make
`fetch_student_data` fail; it substitutes the default `term_avg_score = 300`
and returns a complete feature dictionary. -/
theorem fetch_zero_history_returns_default_score
    (db : RecordStore) (student_id : String)
    (s : StudentRow) (g : GuardianRow) (c : ClassRow) (standard_value : ℤ)
    (hs : db.students.find? (fun r => r.id == student_id) = some s)
    (hg : db.guardians.find? (fun r => r.id == s.guardian_id) = some g)
    (hc : db.classes.find? (fun r => r.id == s.current_class_id) = some c)
    (hstd : class_standard c.name = some standard_value)
    (hac : db.academic_performance.filter
      (fun r => r.student_id == student_id) = []) :
    fetch_student_data student_id db ≠ none
    ∧ (fetch_student_data student_id db).map
        FeatureVector.term_avg_score = some 300 := by
  have hav : avg_score_subquery student_id db = none := by
    simp [avg_score_subquery, hac]
  constructor <;> simp [fetch_student_data, hs, hg, hc, hstd, hav]

/-- Witness for the amended C3 at the concrete zero-history store. -/
theorem fetch_zero_history_returns_default_score_witness :
    fetch_student_data "s1" zero_history_store ≠ none
    ∧ (fetch_student_data "s1" zero_history_store).map
        FeatureVector.term_avg_score = some 300 :=
  fetch_zero_history_returns_default_score zero_history_store "s1"
    ⟨"s1", 10, "male", some 3, none, "g1", "c1", "active"⟩
    ⟨"g1", some "medium", some "mother"⟩
    ⟨"c1", "Standard 4"⟩ 4
    (by decide) (by decide) (by decide) (by decide) (by decide)

/-- C4: when a student (resolving with guardian, class, and a class name whose
standard cast succeeds) has no attendance rows in the 30-day window,
`school_attendance_rate` is the default 0.8 rather than a division error;
moreover whenever the attendance subquery does produce counts, the denominator
is positive, so the guarded division never divides by zero. -/
theorem fetch_no_attendance_defaults_rate
    (db : RecordStore) (student_id : String)
    (s : StudentRow) (g : GuardianRow) (c : ClassRow) (standard_value : ℤ)
    (hs : db.students.find? (fun r => r.id == student_id) = some s)
    (hg : db.guardians.find? (fun r => r.id == s.guardian_id) = some g)
    (hc : db.classes.find? (fun r => r.id == s.current_class_id) = some c)
    (hstd : class_standard c.name = some standard_value)
    (hatt : db.attendance.filter
      (fun r => r.student_id == student_id && decide (db.today - 30 ≤ r.date))
      = []) :
    fetch_student_data student_id db ≠ none
    ∧ (fetch_student_data student_id db).map
        FeatureVector.school_attendance_rate = some (8/10)
    ∧ (∀ present total, attendance_subquery student_id db = some (present, total)
        → 0 < total) := by
  have hsub : attendance_subquery student_id db = none := by
    unfold attendance_subquery
    rw [hatt]
    rfl
  refine ⟨?_, ?_, ?_⟩
  · simp [fetch_student_data, hs, hg, hc, hstd]
  · simp [fetch_student_data, hs, hg, hc, hstd, hsub]
  · intro present total h
    rw [hsub] at h
    exact absurd h (by simp)

/-- Witness for C4 at the concrete store with no attendance rows. -/
theorem fetch_no_attendance_defaults_rate_witness :
    fetch_student_data "s1" zero_history_store ≠ none
    ∧ (fetch_student_data "s1" zero_history_store).map
        FeatureVector.school_attendance_rate = some (8/10) :=
  ⟨(fetch_no_attendance_defaults_rate zero_history_store "s1"
      ⟨"s1", 10, "male", some 3, none, "g1", "c1", "active"⟩
      ⟨"g1", some "medium", some "mother"⟩
      ⟨"c1", "Standard 4"⟩ 4
      (by decide) (by decide) (by decide) (by decide) (by decide)).1,
   (fetch_no_attendance_defaults_rate zero_history_store "s1"
      ⟨"s1", 10, "male", some 3, none, "g1", "c1", "active"⟩
      ⟨"g1", some "medium", some "mother"⟩
      ⟨"c1", "Standard 4"⟩ 4
      (by decide) (by decide) (by decide) (by decide) (by decide)).2.1⟩

/-- C6 counterexample: recording a prediction for a student who no longer
exists does not fail with `studentNotFound` — the source contains no
student-existence validation, and the failure surfaced is the database
foreign-key error raised at commit. -/
theorem save_missing_student_no_not_found_check :
    save_prediction_to_db missing_student_prediction zero_history_store
      = .integrityError
    ∧ save_prediction_to_db missing_student_prediction zero_history_store
      ≠ .studentNotFound := by
  refine ⟨by decide, by decide⟩

/-- C6 as amended: `save_prediction_to_db` always inserts (never updates): on
success the store is unchanged except that exactly the one new row is appended
to `dropout_predictions`; it never produces a `studentNotFound` failure; and
when the referenced student is absent the commit raises the database integrity
error, with the session rolled back so nothing is persisted. -/
theorem save_prediction_insert_atomic (prediction : PredictionResponse)
    (db : RecordStore) :
    (∀ db', save_prediction_to_db prediction db = .ok db' →
      db'.dropout_predictions
          = db.dropout_predictions ++ [to_prediction_row prediction]
        ∧ db'.students = db.students
        ∧ db'.guardians = db.guardians
        ∧ db'.classes = db.classes
        ∧ db'.attendance = db.attendance
        ∧ db'.academic_performance = db.academic_performance
        ∧ db'.bullying_incidents = db.bullying_incidents
        ∧ db'.student_class_history = db.student_class_history
        ∧ db'.today = db.today)
    ∧ save_prediction_to_db prediction db ≠ .studentNotFound
    ∧ ((∀ srow ∈ db.students, srow.id ≠ prediction.student_id) →
        save_prediction_to_db prediction db = .integrityError) := by
  by_cases h : db.students.any (fun s => s.id == prediction.student_id)
  · refine ⟨?_, ?_, ?_⟩
    · intro db' hok
      simp only [save_prediction_to_db, h, if_true] at hok
      cases hok
      exact ⟨rfl, rfl, rfl, rfl, rfl, rfl, rfl, rfl, rfl⟩
    · simp [save_prediction_to_db, h]
    · intro hnone
      rcases List.any_eq_true.mp h with ⟨srow, hmem, hid⟩
      exact absurd (by simpa using hid) (hnone srow hmem)
  · refine ⟨?_, ?_, ?_⟩
    · intro db' hok
      simp [save_prediction_to_db, h] at hok
    · simp [save_prediction_to_db, h]
    · intro _
      simp [save_prediction_to_db, h]

/-- Witness for the amended C6: recording `s1_prediction` against
`zero_history_store` appends exactly one row and changes nothing else. -/
theorem save_prediction_insert_atomic_witness :
    s1_saved_store.dropout_predictions
        = zero_history_store.dropout_predictions
          ++ [to_prediction_row s1_prediction]
      ∧ s1_saved_store.students = zero_history_store.students
      ∧ s1_saved_store.guardians = zero_history_store.guardians
      ∧ s1_saved_store.classes = zero_history_store.classes
      ∧ s1_saved_store.attendance = zero_history_store.attendance
      ∧ s1_saved_store.academic_performance
        = zero_history_store.academic_performance
      ∧ s1_saved_store.bullying_incidents
        = zero_history_store.bullying_incidents
      ∧ s1_saved_store.student_class_history
        = zero_history_store.student_class_history
      ∧ s1_saved_store.today = zero_history_store.today :=
  (save_prediction_insert_atomic s1_prediction zero_history_store).1
    s1_saved_store rfl

/-- C2 failing input: two active students, batch size 1, both students score
successfully (`M = 0`).  The run terminates `completed` with
`processed_count = 2` and both predictions persisted, but
`success_count = 1`, not `N - M = 2`: each sub-batch commit overwrites
`success_count`/`failure_count` with that batch's tally instead of
accumulating, so the final record only reflects the last sub-batch. -/
theorem batch_counts_overwritten_not_accumulated :
    final_task_record demo_disk demo_model 1 two_student_store
      = { status := "completed", total_students := 2, processed_count := 2
          success_count := 1, failure_count := 0 }
    ∧ (generate_daily_predictions demo_disk demo_model 1
        two_student_store).2.dropout_predictions.length = 2
    ∧ (final_task_record demo_disk demo_model 1 two_student_store).success_count
      ≠ 2 - 0 := by
  refine ⟨by decide, by decide, by decide⟩

/-! ### Batch-loop invariants (helper lemmas shared by the scheduler claims) -/

/-- `run_batch` produces one boolean result per student of the batch. -/
theorem run_batch_length (sm : ModelArtifacts) (m : List ℚ → ℚ) :
    ∀ (students : List StudentRow) (db : RecordStore),
      (run_batch sm m students db).1.length = students.length := by
  intro students
  induction students with
  | nil => intro db; rfl
  | cons s rest ih =>
    intro db
    rcases hg : generate_student_prediction sm m s db with ⟨r, db1⟩
    rcases hrb : run_batch sm m rest db1 with ⟨rs, db2⟩
    have := ih db1
    simp [run_batch, hg, hrb] at this ⊢
    exact this

/-- Every snapshot committed by the loop keeps the status and roster total of
the record it started from (only the three counters are reassigned). -/
theorem prediction_loop_mem_status (sm : ModelArtifacts) (m : List ℚ → ℚ)
    (bs total : ℕ) :
    ∀ (fuel i : ℕ) (students : List StudentRow) (db : RecordStore)
      (rec : PredictionTaskHistory),
      ∀ r ∈ (prediction_loop sm m bs total fuel i students db rec).1,
        r.status = rec.status ∧ r.total_students = rec.total_students := by
  intro fuel
  induction fuel with
  | zero =>
    intro i students db rec r hr
    cases students <;> simp [prediction_loop] at hr
  | succ n ih =>
    intro i students db rec r hr
    cases students with
    | nil => simp [prediction_loop] at hr
    | cons s rest =>
      rcases hrb : run_batch sm m ((s :: rest).take bs) db with ⟨results, db1⟩
      rcases hlp : prediction_loop sm m bs total n (i + bs)
          ((s :: rest).drop bs) db1
          { rec with
            processed_count := min (i + bs) total
            success_count := (results.filter id).length
            failure_count := results.length - (results.filter id).length }
        with ⟨snaps, db2⟩
      simp only [prediction_loop, hrb, hlp] at hr
      rcases List.mem_cons.mp hr with hr1 | hr2
      · subst hr1; exact ⟨rfl, rfl⟩
      · exact ih (i + bs) ((s :: rest).drop bs) db1
          { rec with
            processed_count := min (i + bs) total
            success_count := (results.filter id).length
            failure_count := results.length - (results.filter id).length }
          r (by rw [hlp]; exact hr2)

/-- Per committed snapshot, `success_count + failure_count` is the size of
that sub-batch, and summed over all snapshots that is the whole roster. -/
theorem prediction_loop_counts_sum (sm : ModelArtifacts) (m : List ℚ → ℚ)
    (bs total : ℕ) (hbs : 0 < bs) :
    ∀ (fuel i : ℕ) (students : List StudentRow) (db : RecordStore)
      (rec : PredictionTaskHistory), students.length ≤ fuel →
      (((prediction_loop sm m bs total fuel i students db rec).1.map
        (fun r => r.success_count + r.failure_count)).sum = students.length) := by
  intro fuel
  induction fuel with
  | zero =>
    intro i students db rec hf
    cases students with
    | nil => simp [prediction_loop]
    | cons s rest => simp at hf
  | succ n ih =>
    intro i students db rec hf
    cases students with
    | nil => simp [prediction_loop]
    | cons s rest =>
      rcases hrb : run_batch sm m ((s :: rest).take bs) db with ⟨results, db1⟩
      rcases hlp : prediction_loop sm m bs total n (i + bs)
          ((s :: rest).drop bs) db1
          { rec with
            processed_count := min (i + bs) total
            success_count := (results.filter id).length
            failure_count := results.length - (results.filter id).length }
        with ⟨snaps, db2⟩
      have hlen : results.length = min bs (s :: rest).length := by
        have := run_batch_length sm m ((s :: rest).take bs) db
        rw [hrb] at this
        simpa [List.length_take] using this
      have hfil : (results.filter id).length ≤ results.length :=
        List.length_filter_le _ _
      have hdroplen : ((s :: rest).drop bs).length = (s :: rest).length - bs :=
        List.length_drop _ _
      have hih := ih (i + bs) ((s :: rest).drop bs) db1
        { rec with
          processed_count := min (i + bs) total
          success_count := (results.filter id).length
          failure_count := results.length - (results.filter id).length }
        (by rw [hdroplen]; simp at hf ⊢; omega)
      rw [hlp] at hih
      simp only [prediction_loop, hrb, hlp, List.map_cons, List.sum_cons]
      simp only [hih]
      rw [hdroplen]
      rcases Nat.le_total bs (s :: rest).length with hc | hc
      · rw [Nat.min_eq_left hc] at hlen
        omega
      · rw [Nat.min_eq_right hc] at hlen
        omega

/-- With fuel covering the roster, a nonempty roster yields at least one
committed snapshot. -/
theorem prediction_loop_ne_nil (sm : ModelArtifacts) (m : List ℚ → ℚ)
    (bs total : ℕ) (fuel i : ℕ) (students : List StudentRow) (db : RecordStore)
    (rec : PredictionTaskHistory) (hne : students ≠ [])
    (hf : students.length ≤ fuel) :
    (prediction_loop sm m bs total fuel i students db rec).1 ≠ [] := by
  cases students with
  | nil => exact absurd rfl hne
  | cons s rest =>
    cases fuel with
    | zero => simp at hf
    | succ n =>
      rcases hrb : run_batch sm m ((s :: rest).take bs) db with ⟨results, db1⟩
      rcases hlp : prediction_loop sm m bs total n (i + bs)
          ((s :: rest).drop bs) db1
          { rec with
            processed_count := min (i + bs) total
            success_count := (results.filter id).length
            failure_count := results.length - (results.filter id).length }
        with ⟨snaps, db2⟩
      simp [prediction_loop, hrb, hlp]

/-- When the loop starts at offset `i` with `i + (remaining roster) = total`,
the last committed snapshot reports `processed_count = total`. -/
theorem prediction_loop_last_processed (sm : ModelArtifacts) (m : List ℚ → ℚ)
    (bs total : ℕ) (hbs : 0 < bs) :
    ∀ (fuel i : ℕ) (students : List StudentRow) (db : RecordStore)
      (rec d : PredictionTaskHistory), students ≠ [] →
      students.length ≤ fuel → i + students.length = total →
      ((prediction_loop sm m bs total fuel i students db rec).1.getLastD
        d).processed_count = total := by
  intro fuel
  induction fuel with
  | zero =>
    intro i students db rec d hne hf _
    cases students with
    | nil => exact absurd rfl hne
    | cons s rest => simp at hf
  | succ n ih =>
    intro i students db rec d hne hf htot
    cases students with
    | nil => exact absurd rfl hne
    | cons s rest =>
      rcases hrb : run_batch sm m ((s :: rest).take bs) db with ⟨results, db1⟩
      rcases hlp : prediction_loop sm m bs total n (i + bs)
          ((s :: rest).drop bs) db1
          { rec with
            processed_count := min (i + bs) total
            success_count := (results.filter id).length
            failure_count := results.length - (results.filter id).length }
        with ⟨snaps, db2⟩
      simp only [prediction_loop, hrb, hlp, List.getLastD_cons]
      by_cases hempty : (s :: rest).drop bs = []
      · have hsnil : snaps = [] := by
          rw [hempty] at hlp
          simp [prediction_loop] at hlp
          exact hlp.1
        have hlen : (s :: rest).length ≤ bs := List.drop_eq_nil_iff.mp hempty
        subst hsnil
        simp only [List.getLastD_nil]
        show min (i + bs) total = total
        exact Nat.min_eq_right (by omega)
      · have hlen2 : ((s :: rest).drop bs).length = (s :: rest).length - bs :=
          List.length_drop _ _
        have hgt : bs < (s :: rest).length := by
          by_contra hcon
          push_neg at hcon
          exact hempty (List.drop_eq_nil_of_le hcon)
        have := ih (i + bs) ((s :: rest).drop bs) db1
          { rec with
            processed_count := min (i + bs) total
            success_count := (results.filter id).length
            failure_count := results.length - (results.filter id).length }
          { rec with
            processed_count := min (i + bs) total
            success_count := (results.filter id).length
            failure_count := results.length - (results.filter id).length }
          hempty (by rw [hlen2]; omega) (by rw [hlen2]; omega)
        rw [hlp] at this
        exact this

/-- Starting from a record whose processed count is at most the first
sub-batch's `min (i + bs) total`, the committed snapshots have non-decreasing
`processed_count`. -/
theorem prediction_loop_processed_chain (sm : ModelArtifacts) (m : List ℚ → ℚ)
    (bs total : ℕ) :
    ∀ (fuel i : ℕ) (students : List StudentRow) (db : RecordStore)
      (rec : PredictionTaskHistory),
      rec.processed_count ≤ min (i + bs) total →
      List.Chain' (fun a b => a.processed_count ≤ b.processed_count)
        (rec :: (prediction_loop sm m bs total fuel i students db rec).1) := by
  intro fuel
  induction fuel with
  | zero =>
    intro i students db rec _
    cases students <;> simp [prediction_loop]
  | succ n ih =>
    intro i students db rec hrec
    cases students with
    | nil => simp [prediction_loop]
    | cons s rest =>
      rcases hrb : run_batch sm m ((s :: rest).take bs) db with ⟨results, db1⟩
      rcases hlp : prediction_loop sm m bs total n (i + bs)
          ((s :: rest).drop bs) db1
          { rec with
            processed_count := min (i + bs) total
            success_count := (results.filter id).length
            failure_count := results.length - (results.filter id).length }
        with ⟨snaps, db2⟩
      simp only [prediction_loop, hrb, hlp]
      rw [List.chain'_cons]
      constructor
      · exact hrec
      · have := ih (i + bs) ((s :: rest).drop bs) db1
          { rec with
            processed_count := min (i + bs) total
            success_count := (results.filter id).length
            failure_count := results.length - (results.filter id).length }
          (by
            show min (i + bs) total ≤ min (i + bs + bs) total
            exact min_le_min (Nat.le_add_right _ _) le_rfl)
        rwa [hlp] at this

/-- The committed trace of a `generate_daily_predictions` run is the initial
`running` record, the per-sub-batch snapshots, and the final record — the last
in-memory record stamped `completed`. -/
theorem daily_trace_eq (sm : ModelArtifacts) (m : List ℚ → ℚ) (bs : ℕ)
    (db : RecordStore) :
    (generate_daily_predictions sm m bs db).1 =
      (initial_task_record db :: committed_batch_snapshots sm m bs db)
        ++ [{ (initial_task_record db :: committed_batch_snapshots sm m bs db).getLastD
              (initial_task_record db) with status := "completed" }] := by
  unfold generate_daily_predictions committed_batch_snapshots
  by_cases h : (active_students db).length = 0
  · have hnil : active_students db = [] := List.length_eq_zero.mp h
    simp [h, hnil, prediction_loop]
  · rcases hlp : prediction_loop sm m bs (active_students db).length
        (active_students db).length 0 (active_students db) db
        (initial_task_record db) with ⟨snaps, db2⟩
    simp [h, hlp]

/-- C5: per-student errors are absorbed at the per-student boundary — a failed
feature fetch or a raised encoder error makes `generate_student_prediction`
return `False` with the store untouched, never an escaping exception — and for
every roster and every outcome pattern the batch run still terminates
`completed`, reports the whole roster processed, and accounts every student
(success or failure) in exactly one sub-batch commit. -/
theorem per_student_failures_never_abort (sm : ModelArtifacts)
    (m : List ℚ → ℚ) (db : RecordStore) (bs : ℕ) (hbs : 0 < bs) :
    (final_task_record sm m bs db).status = "completed"
    ∧ (final_task_record sm m bs db).processed_count
      = (active_students db).length
    ∧ ((committed_batch_snapshots sm m bs db).map
        (fun r => r.success_count + r.failure_count)).sum
      = (active_students db).length
    ∧ (∀ (student : StudentRow) (dbx : RecordStore),
        fetch_student_data student.id dbx = none →
        generate_student_prediction sm m student dbx = (false, dbx))
    ∧ (∀ (student : StudentRow) (dbx : RecordStore) (features : FeatureVector),
        fetch_student_data student.id dbx = some features →
        preprocess_features sm features = none →
        generate_student_prediction sm m student dbx = (false, dbx)) := by
  have htrace := daily_trace_eq sm m bs db
  have hfinal : final_task_record sm m bs db =
      { (initial_task_record db :: committed_batch_snapshots sm m bs db).getLastD
          (initial_task_record db) with status := "completed" } := by
    unfold final_task_record
    rw [htrace]
    rw [List.getLastD_concat]
  refine ⟨?_, ?_, ?_, ?_, ?_⟩
  · rw [hfinal]
  · rw [hfinal]
    show ((initial_task_record db :: committed_batch_snapshots sm m bs db).getLastD
        (initial_task_record db)).processed_count = (active_students db).length
    by_cases h : (active_students db).length = 0
    · have hnil : active_students db = [] := List.length_eq_zero.mp h
      have hsnil : committed_batch_snapshots sm m bs db = [] := by
        unfold committed_batch_snapshots
        rw [hnil]
        simp [prediction_loop]
      rw [hsnil, h]
      rfl
    · have hne : active_students db ≠ [] := fun hc => h (by rw [hc]; rfl)
      rw [List.getLastD_cons]
      exact prediction_loop_last_processed sm m bs (active_students db).length
        hbs (active_students db).length 0 (active_students db) db
        (initial_task_record db) (initial_task_record db) hne le_rfl (by omega)
  · exact prediction_loop_counts_sum sm m bs (active_students db).length hbs
      (active_students db).length 0 (active_students db) db
      (initial_task_record db) le_rfl
  · intro student dbx h
    simp [generate_student_prediction, h]
  · intro student dbx features h1 h2
    simp [generate_student_prediction, h1, h2]

/-- Witness for C5: the two-student store where the second student's feature
fetch fails — the run completes over the whole roster while the failing
student is converted to a `False` result. -/
theorem per_student_failures_never_abort_witness :
    (final_task_record demo_disk demo_model 1 mixed_outcome_store).status
      = "completed"
    ∧ (final_task_record demo_disk demo_model 1
        mixed_outcome_store).processed_count = 2
    ∧ generate_student_prediction demo_disk demo_model
        ⟨"s3", 9, "female", none, none, "gX", "c1", "active"⟩
        mixed_outcome_store = (false, mixed_outcome_store) := by
  have h := per_student_failures_never_abort demo_disk demo_model
    mixed_outcome_store 1 (by decide)
  exact ⟨h.1, h.2.1.trans (by decide),
    h.2.2.2.1 ⟨"s3", 9, "female", none, none, "gX", "c1", "active"⟩
      mixed_outcome_store (by decide)⟩

/-- A list of record states with non-decreasing processed counts, all still
`running`, satisfies the `task_step` chain. -/
theorem chain'_task_step_of_running (l : List PredictionTaskHistory)
    (hproc : List.Chain' (fun a b => a.processed_count ≤ b.processed_count) l)
    (hall : ∀ r ∈ l, r.status = "running") : List.Chain' task_step l := by
  induction l with
  | nil => simp
  | cons a l ih =>
    cases l with
    | nil => simp
    | cons b l' =>
      rw [List.chain'_cons] at hproc ⊢
      refine ⟨⟨hproc.1, hall a (by simp), Or.inl (hall b (by simp))⟩,
        ih hproc.2 ?_⟩
      intro r hr
      exact hall r (List.mem_cons_of_mem _ hr)

/-- The committed trace of a run is a `task_step` chain, and every committed
state before the final one is still `running`. -/
theorem daily_trace_facts (sm : ModelArtifacts) (m : List ℚ → ℚ) (bs : ℕ)
    (db : RecordStore) :
    List.Chain' task_step (generate_daily_predictions sm m bs db).1
    ∧ ∀ x ∈ (generate_daily_predictions sm m bs db).1.dropLast,
        x.status = "running" := by
  have htrace := daily_trace_eq sm m bs db
  have hsnap_run : ∀ r ∈ committed_batch_snapshots sm m bs db,
      r.status = "running" := by
    intro r hr
    exact (prediction_loop_mem_status sm m bs (active_students db).length
      (active_students db).length 0 (active_students db) db
      (initial_task_record db) r hr).1
  have hproc : List.Chain' (fun a b => a.processed_count ≤ b.processed_count)
      (initial_task_record db :: committed_batch_snapshots sm m bs db) :=
    prediction_loop_processed_chain sm m bs (active_students db).length
      (active_students db).length 0 (active_students db) db
      (initial_task_record db) (Nat.zero_le _)
  have hrun_all : ∀ x ∈ initial_task_record db ::
      committed_batch_snapshots sm m bs db, x.status = "running" := by
    intro x hx
    rcases List.mem_cons.mp hx with h | h
    · rw [h]; rfl
    · exact hsnap_run x h
  rw [htrace]
  constructor
  · apply List.chain'_append.mpr
    refine ⟨chain'_task_step_of_running _ hproc hrun_all,
      List.chain'_singleton _, ?_⟩
    intro x hx y hy
    simp only [List.head?_cons, Option.mem_def, Option.some.injEq] at hy
    subst hy
    rcases List.mem_getLast?_eq_getLast hx with ⟨hne, hxeq⟩
    have hlast : (initial_task_record db ::
        committed_batch_snapshots sm m bs db).getLastD
        (initial_task_record db) = x := by
      rw [List.getLastD_eq_getLast?,
        List.getLast?_eq_getLast_of_ne_nil hne]
      simp [hxeq]
    exact ⟨le_of_eq (by rw [hlast]),
      hrun_all x (hxeq ▸ List.getLast_mem hne), Or.inr (Or.inl rfl)⟩
  · intro x hx
    rw [List.dropLast_concat] at hx
    exact hrun_all x hx

/-- Appending a `failed` stamp of the in-memory record (the one at index `k`
that failed to commit, or the last committed one at index `k - 1`) to a
committed prefix preserves the `task_step` chain. -/
theorem chain'_take_append_failed (t : List PredictionTaskHistory)
    (d : PredictionTaskHistory) (k idx : ℕ)
    (hchain : List.Chain' task_step t)
    (hrun : ∀ x ∈ t.dropLast, x.status = "running")
    (hk : k < t.length) (hidx : idx = k ∨ idx + 1 = k) :
    List.Chain' task_step
      (t.take k ++ [{ t.getD idx d with status := "failed" }]) := by
  cases k with
  | zero =>
    simp only [List.take_zero, List.nil_append]
    exact List.chain'_singleton _
  | succ j =>
    have hjlen : j < t.length := by omega
    have htake : t.take (j + 1) = t.take j ++ [t[j]] := by
      rw [List.take_succ, List.getElem?_eq_getElem hjlen]
      rfl
    apply List.chain'_append.mpr
    refine ⟨hchain.take _, List.chain'_singleton _, ?_⟩
    intro x hx y hy
    simp only [List.head?_cons, Option.mem_def, Option.some.injEq] at hy
    subst hy
    rw [htake, List.getLast?_concat] at hx
    simp only [Option.mem_def, Option.some.injEq] at hx
    subst hx
    refine ⟨?_, ?_, Or.inr (Or.inr rfl)⟩
    · show (t[j]).processed_count ≤ (t.getD idx d).processed_count
      rcases hidx with hi | hi
      · subst hi
        rw [List.getD_eq_getElem t d hk]
        exact ((List.chain'_iff_get.mp hchain) j (by omega)).1
      · have hij : idx = j := by omega
        subst hij
        rw [List.getD_eq_getElem t d hjlen]
    · apply hrun
      rw [List.dropLast_eq_take]
      have hjlt2 : j < t.length - 1 := by omega
      have hjtake : j < (t.take (t.length - 1)).length := by
        rw [List.length_take]
        exact Nat.lt_min.mpr ⟨hjlt2, hjlen⟩
      have heq : (t.take (t.length - 1))[j] = t[j] :=
        List.getElem_take ..
      rw [← heq]
      exact List.getElem_mem hjtake

/-- C7: over the sequence of record states a run commits — the normal path,
and every aborted path (run-level exception after `k` commits, raised at a
commit or between commits, with or without the failure-path commit
succeeding) — `processed_count` is monotonically non-decreasing and the status
only ever steps from `running` to `running`, `completed` or `failed`; it never
moves backward and never between the two terminal states. -/
theorem batch_record_monotone_status_transitions (sm : ModelArtifacts)
    (m : List ℚ → ℚ) (bs : ℕ) (db : RecordStore) (hbs : 0 < bs) :
    List.Chain' task_step (generate_daily_predictions sm m bs db).1
    ∧ ∀ (k : ℕ) (at_commit fail_commit_ok : Bool),
        k < (generate_daily_predictions sm m bs db).1.length →
        List.Chain' task_step
          (aborted_trace sm m bs db k at_commit fail_commit_ok) := by
  obtain ⟨hchain, hrun⟩ := daily_trace_facts sm m bs db
  refine ⟨hchain, ?_⟩
  intro k at_commit fc hk
  simp only [aborted_trace]
  cases fc with
  | false =>
    rw [if_pos (by simp)]
    exact hchain.take k
  | true =>
    cases at_commit with
    | true =>
      rw [if_neg (by simp), if_neg (by simp)]
      exact chain'_take_append_failed _ _ k k hchain hrun hk (Or.inl rfl)
    | false =>
      rw [if_neg (by simp)]
      by_cases h0 : k = 0
      · rw [if_pos ⟨h0, rfl⟩]
        exact List.chain'_nil
      · rw [if_neg (by simp [h0])]
        exact chain'_take_append_failed _ _ k (k - 1) hchain hrun hk
          (Or.inr (by omega))

/-- Witness for C7 on a concrete two-student run (batch size 1), including an
aborted variant failing at the second commit. -/
theorem batch_record_monotone_status_transitions_witness :
    List.Chain' task_step
      (generate_daily_predictions demo_disk demo_model 1 two_student_store).1
    ∧ List.Chain' task_step
      (aborted_trace demo_disk demo_model 1 two_student_store 1 true true) := by
  have h := batch_record_monotone_status_transitions demo_disk demo_model 1
    two_student_store (by decide)
  exact ⟨h.1, h.2 1 true true (by decide)⟩

/-- C9 counterexample: in a process whose on-disk `saved_model` bundle has
changed since import, `preprocess_features` does not encode with the state
loaded at process start — it reloads from disk on the call and produces a
different matrix than the startup artifacts would. -/
theorem preprocess_ignores_startup_state :
    preprocess_features stale_process.saved_model scenario_features
      ≠ encode_with stale_process.startup_artifacts scenario_features := by
  have h1 : preprocess_features stale_process.saved_model scenario_features
      = some [scenario_features.age, (scenario_features.standard : ℚ)] := rfl
  have h2 : encode_with stale_process.startup_artifacts scenario_features
      = some [scenario_features.age] := rfl
  rw [h1, h2]
  simp

/-- C9 as amended: encoding is deterministic in the persisted on-disk bundle —
two calls against the same `saved_model` contents return bit-identical
matrices even from processes with different startup-loaded globals — because
`preprocess_features` reloads the artifacts from disk on every call rather
than using the state loaded at process start. -/
theorem preprocess_deterministic_in_disk (p q : ProcessState)
    (data : FeatureVector) (hdisk : p.saved_model = q.saved_model) :
    preprocess_features p.saved_model data
      = preprocess_features q.saved_model data
    ∧ preprocess_features p.saved_model data
      = encode_with (load_model_artifacts p.saved_model) data := by
  constructor
  · rw [hdisk]
  · rfl

/-- Witness for the amended C9: two processes sharing the changed disk bundle
but with different startup globals encode identically. -/
theorem preprocess_deterministic_in_disk_witness :
    preprocess_features stale_process.saved_model scenario_features
      = preprocess_features
          (ProcessState.mk stale_process.saved_model artifacts_v1).saved_model
          scenario_features
    ∧ preprocess_features stale_process.saved_model scenario_features
      = encode_with (load_model_artifacts stale_process.saved_model)
          scenario_features :=
  preprocess_deterministic_in_disk stale_process
    (ProcessState.mk stale_process.saved_model artifacts_v1)
    scenario_features rfl

end Dropout
